import Mathlib

/-!
Verification of targeted patches in an Electron-style runtime, checked
against their natural-language specification.

Part 1 embeds `shell/browser/media/media_stream_devices_controller.cc`:
the broker that decides, for one incoming media capture request, which
devices (if any) are granted, and that guarantees the request's
completion callback fires exactly once.

Collaborators living outside the embedded file
(`MediaCaptureDevicesDispatcher` accessors, `api::Session`
delegation, `DesktopMediaID` parsing/printing, `RenderFrameHost`
lookup) are modelled as fields of a `HostEnv` record; the ones whose
behaviour matters to a claim are modelled from the spec's words and
marked as such in their doc comments.
-/

/-- `blink::mojom::MediaStreamType`, restricted to the constructors the
controller inspects. `NO_SERVICE` stands for "this kind not requested". -/
inductive MediaStreamType where
  | NO_SERVICE
  | DEVICE_AUDIO_CAPTURE
  | DEVICE_VIDEO_CAPTURE
  | GUM_TAB_AUDIO_CAPTURE
  | GUM_TAB_VIDEO_CAPTURE
  | GUM_DESKTOP_AUDIO_CAPTURE
  | GUM_DESKTOP_VIDEO_CAPTURE
deriving DecidableEq

/-- `blink::MediaStreamRequestType`. -/
inductive MediaStreamRequestType where
  | MEDIA_DEVICE_ACCESS
  | MEDIA_DEVICE_UPDATE
  | MEDIA_GENERATE_STREAM
  | MEDIA_OPEN_DEVICE_PEPPER_ONLY
deriving DecidableEq

/-- `blink::MediaStreamDevice`: a device descriptor (type, id, name). -/
structure MediaStreamDevice where
  type : MediaStreamType
  id : String
  name : String
deriving DecidableEq

/-- The fields of `content::MediaStreamRequest` that the controller reads. -/
structure MediaStreamRequest where
  render_process_id : Nat
  render_frame_id : Nat
  request_type : MediaStreamRequestType
  audio_type : MediaStreamType
  video_type : MediaStreamType
  requested_audio_device_id : String
  requested_video_device_id : String
deriving DecidableEq

/-- `blink::mojom::MediaStreamRequestResult`, restricted to the values the
controller produces. -/
inductive MediaStreamRequestResult where
  | OK
  | NO_HARDWARE
  | FAILED_DUE_TO_SHUTDOWN
deriving DecidableEq

/-- One invocation of the completion callback: the device list and result
code passed to `callback_.Run`. -/
abbrev Invocation := List MediaStreamDevice × MediaStreamRequestResult

/-- `content::DesktopMediaID::Type`. -/
inductive DesktopMediaIDType where
  | TYPE_NONE
  | TYPE_SCREEN
  | TYPE_WINDOW
  | TYPE_WEB_CONTENTS
deriving DecidableEq

/-- `content::DesktopMediaID`: a parsed descriptor identifying a screen or
window as a capture target. -/
structure DesktopMediaID where
  type : DesktopMediaIDType
  id : Int
deriving DecidableEq

/-- The host-engine and repository collaborators the controller calls into.
`audio_devices` / `video_devices` are the dispatcher's
`GetAudioCaptureDevices` / `GetVideoCaptureDevices` lists; `rfhAlive`
is whether `content::RenderFrameHost::FromID` returns non-null;
`chooseMediaDevice` is whether the per-browser-context
`api::Session::ChooseMediaDevice` accepts responsibility for the request
(modelled from the spec: if it accepts, ownership of callback resolution
transfers and the collaborator eventually resolves the callback once,
recorded as `sessionResolution`); `parseDesktopMediaID` and
`desktopMediaIDToString` are `content::DesktopMediaID::Parse` and
`DesktopMediaID::ToString`. -/
structure HostEnv where
  audio_devices : List MediaStreamDevice
  video_devices : List MediaStreamDevice
  rfhAlive : Nat → Nat → Bool
  chooseMediaDevice : MediaStreamRequest → Bool
  sessionResolution : MediaStreamRequest → Invocation
  parseDesktopMediaID : String → DesktopMediaID
  desktopMediaIDToString : DesktopMediaID → String

/-- `HasAnyAvailableDevice` (anonymous namespace of the controller source):
true when the audio and video capture device lists are not both empty. -/
def HasAnyAvailableDevice (env : HostEnv) : Bool :=
  !(env.audio_devices.isEmpty && env.video_devices.isEmpty)

/-- `microphone_requested_`, from the constructor: device audio capture was
asked for, or the request is a Pepper open-device request (which always
requests both kinds to avoid popping two infobars). -/
def microphone_requested (req : MediaStreamRequest) : Bool :=
  req.audio_type == .DEVICE_AUDIO_CAPTURE ||
  req.request_type == .MEDIA_OPEN_DEVICE_PEPPER_ONLY

/-- `webcam_requested_`, from the constructor. -/
def webcam_requested (req : MediaStreamRequest) : Bool :=
  req.video_type == .DEVICE_VIDEO_CAPTURE ||
  req.request_type == .MEDIA_OPEN_DEVICE_PEPPER_ONLY

/-- Modelled from the spec (the dispatcher's implementation is not part of
the embedded file): `GetRequestedAudioDevice` resolves a
specifically-requested device id among the audio capture devices. -/
def GetRequestedAudioDevice (env : HostEnv) (id : String) :
    Option MediaStreamDevice :=
  env.audio_devices.find? (fun d => d.id == id)

/-- Modelled from the spec: `GetRequestedVideoDevice` resolves a
specifically-requested device id among the video capture devices. -/
def GetRequestedVideoDevice (env : HostEnv) (id : String) :
    Option MediaStreamDevice :=
  env.video_devices.find? (fun d => d.id == id)

/-- Modelled from the spec: `GetFirstAvailableAudioDevice` is the "first
available" audio device, if any. -/
def GetFirstAvailableAudioDevice (env : HostEnv) : Option MediaStreamDevice :=
  env.audio_devices.head?

/-- Modelled from the spec: `GetFirstAvailableVideoDevice` is the "first
available" video device, if any. -/
def GetFirstAvailableVideoDevice (env : HostEnv) : Option MediaStreamDevice :=
  env.video_devices.head?

/-- Modelled from the spec: `GetDefaultDevices` appends the host-default
(first available) audio and/or video device for each kind still needed. -/
def GetDefaultDevices (env : HostEnv) (audio video : Bool) :
    List MediaStreamDevice :=
  (if audio then (env.audio_devices.head?).toList else []) ++
  (if video then (env.video_devices.head?).toList else [])

/-- The device list built by `MediaStreamDevicesController::Accept`
(lines 91-169 of the source). -/
def AcceptDevices (env : HostEnv) (req : MediaStreamRequest) :
    List MediaStreamDevice :=
  if microphone_requested req || webcam_requested req then
    match req.request_type with
    | .MEDIA_OPEN_DEVICE_PEPPER_ONLY =>
      -- For open device request pick the desired device or fall back to
      -- the first available of the given type.
      let device : Option MediaStreamDevice :=
        if req.audio_type == .DEVICE_AUDIO_CAPTURE then
          match GetRequestedAudioDevice env req.requested_audio_device_id with
          | some d => some d
          | none => GetFirstAvailableAudioDevice env
        else if req.video_type == .DEVICE_VIDEO_CAPTURE then
          match GetRequestedVideoDevice env req.requested_video_device_id with
          | some d => some d
          | none => GetFirstAvailableVideoDevice env
        else none
      device.toList
    | .MEDIA_GENERATE_STREAM =>
      -- Get the exact audio or video device if an id is specified.
      let audioPick : Option MediaStreamDevice :=
        if !req.requested_audio_device_id.isEmpty then
          GetRequestedAudioDevice env req.requested_audio_device_id
        else none
      let videoPick : Option MediaStreamDevice :=
        if !req.requested_video_device_id.isEmpty then
          GetRequestedVideoDevice env req.requested_video_device_id
        else none
      let needs_audio_device := microphone_requested req && audioPick.isNone
      let needs_video_device := webcam_requested req && videoPick.isNone
      audioPick.toList ++ videoPick.toList ++
        (if needs_audio_device || needs_video_device then
          GetDefaultDevices env needs_audio_device needs_video_device
        else [])
    | .MEDIA_DEVICE_ACCESS =>
      GetDefaultDevices env (microphone_requested req) (webcam_requested req)
    | .MEDIA_DEVICE_UPDATE =>
      -- NOTREACHED(); the switch breaks with no devices collected.
      []
  else []

/-- `MediaStreamDevicesController::Accept`: runs the callback with the
collected devices and result OK. -/
def Accept (env : HostEnv) (req : MediaStreamRequest) : Invocation :=
  (AcceptDevices env req, .OK)

/-- `MediaStreamDevicesController::Deny`: runs the callback with an empty
device list and the given result. -/
def Deny (result : MediaStreamRequestResult) : Invocation :=
  ([], result)

/-- The device list synthesized by
`MediaStreamDevicesController::HandleUserMediaRequest` for tab/desktop
capture (no device enumeration). -/
def HandleUserMediaRequestDevices (env : HostEnv) (req : MediaStreamRequest) :
    List MediaStreamDevice :=
  (if req.audio_type == .GUM_TAB_AUDIO_CAPTURE then
    [⟨.GUM_TAB_AUDIO_CAPTURE, "", ""⟩] else []) ++
  (if req.video_type == .GUM_TAB_VIDEO_CAPTURE then
    [⟨.GUM_TAB_VIDEO_CAPTURE, "", ""⟩] else []) ++
  (if req.audio_type == .GUM_DESKTOP_AUDIO_CAPTURE then
    [⟨.GUM_DESKTOP_AUDIO_CAPTURE, "loopback", "System Audio"⟩] else []) ++
  (if req.video_type == .GUM_DESKTOP_VIDEO_CAPTURE then
    -- If the device id was not specified then this is a screen capture
    -- request, targeting the full desktop (kFullDesktopScreenId = -1).
    let screen_id : DesktopMediaID :=
      if req.requested_video_device_id.isEmpty then
        ⟨.TYPE_SCREEN, -1⟩
      else
        env.parseDesktopMediaID req.requested_video_device_id
    [⟨.GUM_DESKTOP_VIDEO_CAPTURE, env.desktopMediaIDToString screen_id,
      "Screen"⟩]
  else [])

/-- `MediaStreamDevicesController::HandleUserMediaRequest`: runs the callback
with the synthesized devices; NO_HARDWARE when none was synthesized, OK
otherwise. -/
def HandleUserMediaRequest (env : HostEnv) (req : MediaStreamRequest) :
    Invocation :=
  let devices := HandleUserMediaRequestDevices env req
  (devices,
   if devices.isEmpty then .NO_HARDWARE else .OK)

/-- The condition on line 62-69 of `TakeAction`: tab or desktop capture. -/
def isScreenCaptureRequest (req : MediaStreamRequest) : Bool :=
  req.audio_type == .GUM_TAB_AUDIO_CAPTURE ||
  req.video_type == .GUM_TAB_VIDEO_CAPTURE ||
  req.audio_type == .GUM_DESKTOP_AUDIO_CAPTURE ||
  req.video_type == .GUM_DESKTOP_VIDEO_CAPTURE

/-- What `TakeAction` does with the completion callback:
`fired inv` — the controller itself ran the callback with `inv`;
`delegated` — the callback was handed to the session's device chooser;
`stalled` — `TakeAction` returned with the callback still held
(the originating render frame host no longer exists). -/
inductive TakeActionOutcome where
  | fired (inv : Invocation)
  | delegated
  | stalled
deriving DecidableEq

/-- `MediaStreamDevicesController::TakeAction` (lines 60-89). -/
def TakeAction (env : HostEnv) (req : MediaStreamRequest) : TakeActionOutcome :=
  if isScreenCaptureRequest req then
    .fired (HandleUserMediaRequest env req)
  else if !env.rfhAlive req.render_process_id req.render_frame_id then
    .stalled
  else if env.chooseMediaDevice req then
    .delegated
  else if HasAnyAvailableDevice env then
    .fired (Accept env req)
  else
    .fired (Deny .NO_HARDWARE)

/-- Callback invocations performed directly by `TakeAction`. -/
def takeActionFires : TakeActionOutcome → List Invocation
  | .fired inv => [inv]
  | .delegated => []
  | .stalled => []

/-- Whether `callback_` is still non-null after `TakeAction`: only on the
early return when the render frame host is gone (on the other paths the
callback was either run or moved to the session). -/
def callbackHeldAfter : TakeActionOutcome → Bool
  | .fired _ => false
  | .delegated => false
  | .stalled => true

/-- `MediaStreamDevicesController::~MediaStreamDevicesController`: if the
callback is still held, run it with an empty device list and
FAILED_DUE_TO_SHUTDOWN; otherwise do nothing. -/
def destructorInvocations (callbackHeld : Bool) : List Invocation :=
  if callbackHeld then [([], .FAILED_DUE_TO_SHUTDOWN)] else []

/-- Callback invocations performed by the controller itself over its whole
life: `TakeAction` followed by destruction. -/
def brokerInvocations (env : HostEnv) (req : MediaStreamRequest) :
    List Invocation :=
  takeActionFires (TakeAction env req) ++
    destructorInvocations (callbackHeldAfter (TakeAction env req))

/-- Modelled from the spec: when delegation is accepted, the session
collaborator eventually resolves the transferred callback exactly once. -/
def delegateInvocations (env : HostEnv) (req : MediaStreamRequest) :
    List Invocation :=
  if TakeAction env req = .delegated then [env.sessionResolution req] else []

/-- All invocations the request's completion callback ever sees:
the controller's own plus, on the delegated path, the session's. -/
def lifecycleInvocations (env : HostEnv) (req : MediaStreamRequest) :
    List Invocation :=
  brokerInvocations env req ++ delegateInvocations env req

/-- C1: across every path (tab/desktop synthesis, delegation, accept, deny,
premature destruction) the completion callback is invoked exactly once;
and a controller destroyed while the callback is still unfired invokes it
exactly once with FAILED_DUE_TO_SHUTDOWN and an empty device list. -/
theorem callback_fires_exactly_once (env : HostEnv) (req : MediaStreamRequest) :
    (lifecycleInvocations env req).length = 1 ∧
    destructorInvocations true = [([], .FAILED_DUE_TO_SHUTDOWN)] := by
  refine ⟨?_, rfl⟩
  unfold lifecycleInvocations brokerInvocations delegateInvocations
  cases h : TakeAction env req <;>
    simp [takeActionFires, callbackHeldAfter, destructorInvocations, h]

/-- A concrete host with one audio device and no video devices. -/
def cexEnv : HostEnv where
  audio_devices := [⟨.DEVICE_AUDIO_CAPTURE, "mic1", "Built-in Microphone"⟩]
  video_devices := []
  rfhAlive := fun _ _ => true
  chooseMediaDevice := fun _ => false
  sessionResolution := fun _ => ([], .OK)
  parseDesktopMediaID := fun _ => ⟨.TYPE_SCREEN, 0⟩
  desktopMediaIDToString := fun _ => ""

/-- A concrete getUserMedia request for video only. -/
def cexReq : MediaStreamRequest where
  render_process_id := 1
  render_frame_id := 1
  request_type := .MEDIA_GENERATE_STREAM
  audio_type := .NO_SERVICE
  video_type := .DEVICE_VIDEO_CAPTURE
  requested_audio_device_id := ""
  requested_video_device_id := ""

/-- C2 counterexample: a non-desktop, non-delegated video-only request on a
host with no video device (but one audio device) is NOT resolved with
NO_HARDWARE — `HasAnyAvailableDevice` looks at devices of any kind, so the
controller runs `Accept` and fires the callback with result OK (and, here,
an empty device list). -/
theorem no_hardware_claim_counterexample :
    isScreenCaptureRequest cexReq = false ∧
    cexEnv.chooseMediaDevice cexReq = false ∧
    cexEnv.rfhAlive cexReq.render_process_id cexReq.render_frame_id = true ∧
    webcam_requested cexReq = true ∧
    cexEnv.video_devices = [] ∧
    TakeAction cexEnv cexReq ≠ .fired ([], .NO_HARDWARE) ∧
    TakeAction cexEnv cexReq = .fired ([], .OK) := by
  decide

/-- C2 amended: for a non-desktop request whose render frame host is alive
and which the session does not take over, if no device of ANY kind exists on
the host, the completion callback fires with NO_HARDWARE and an empty
device list. -/
theorem no_hardware_when_no_devices (env : HostEnv) (req : MediaStreamRequest)
    (hscreen : isScreenCaptureRequest req = false)
    (hrfh : env.rfhAlive req.render_process_id req.render_frame_id = true)
    (hsession : env.chooseMediaDevice req = false)
    (haudio : env.audio_devices = [])
    (hvideo : env.video_devices = []) :
    TakeAction env req = .fired ([], .NO_HARDWARE) := by
  unfold TakeAction
  rw [hscreen, hrfh, hsession]
  simp [HasAnyAvailableDevice, haudio, hvideo, Deny]

/-- A concrete host with no devices at all. -/
def emptyEnv : HostEnv where
  audio_devices := []
  video_devices := []
  rfhAlive := fun _ _ => true
  chooseMediaDevice := fun _ => false
  sessionResolution := fun _ => ([], .OK)
  parseDesktopMediaID := fun _ => ⟨.TYPE_SCREEN, 0⟩
  desktopMediaIDToString := fun _ => ""

/-- Witness for the amended C2 at a concrete input. -/
theorem no_hardware_when_no_devices_witness :
    isScreenCaptureRequest cexReq = false ∧
    emptyEnv.rfhAlive cexReq.render_process_id cexReq.render_frame_id = true ∧
    emptyEnv.chooseMediaDevice cexReq = false ∧
    emptyEnv.audio_devices = [] ∧
    emptyEnv.video_devices = [] ∧
    TakeAction emptyEnv cexReq = .fired ([], .NO_HARDWARE) :=
  ⟨rfl, rfl, rfl, rfl, rfl,
   no_hardware_when_no_devices emptyEnv cexReq rfl rfl rfl rfl rfl⟩

/-- The device descriptors the broker grants when it resolves a request
successfully: the synthesized tab/desktop descriptors on the screen-capture
path, the `Accept` selection otherwise. -/
def grantedDevices (env : HostEnv) (req : MediaStreamRequest) :
    List MediaStreamDevice :=
  if isScreenCaptureRequest req then HandleUserMediaRequestDevices env req
  else AcceptDevices env req

/-- C3: every resolution performed by the broker itself is either the
granted descriptors with result OK, or an empty device list with a failure
(NO_HARDWARE or FAILED_DUE_TO_SHUTDOWN). -/
theorem broker_resolution_shape (env : HostEnv) (req : MediaStreamRequest)
    (inv : Invocation) (hmem : inv ∈ brokerInvocations env req) :
    (inv.2 = .OK ∧ inv.1 = grantedDevices env req) ∨
    (inv.2 ≠ .OK ∧ inv.1 = []) := by
  unfold brokerInvocations at hmem
  cases hTA : TakeAction env req with
  | delegated =>
    rw [hTA] at hmem
    simp [takeActionFires, callbackHeldAfter, destructorInvocations] at hmem
  | stalled =>
    rw [hTA] at hmem
    simp [takeActionFires, callbackHeldAfter, destructorInvocations] at hmem
    subst hmem
    right
    exact ⟨by simp, rfl⟩
  | fired i =>
    rw [hTA] at hmem
    simp [takeActionFires, callbackHeldAfter, destructorInvocations] at hmem
    subst hmem
    unfold TakeAction at hTA
    unfold grantedDevices
    split at hTA
    · -- screen-capture path
      rename_i hscreen
      rw [if_pos hscreen]
      have hi : inv = HandleUserMediaRequest env req := by
        injection hTA with h
        exact h.symm
      subst hi
      unfold HandleUserMediaRequest
      by_cases hE : (HandleUserMediaRequestDevices env req).isEmpty
      · right
        refine ⟨by simp [hE], ?_⟩
        simpa [List.isEmpty_iff] using hE
      · left
        exact ⟨by simp [hE], rfl⟩
    · rename_i hscreen
      rw [if_neg hscreen]
      split at hTA
      · exact absurd hTA (by simp)
      · split at hTA
        · exact absurd hTA (by simp)
        · split at hTA
          · -- Accept path
            left
            have hi : inv = Accept env req := by
              injection hTA with h
              exact h.symm
            subst hi
            exact ⟨rfl, rfl⟩
          · -- Deny NO_HARDWARE path
            right
            have hi : inv = Deny .NO_HARDWARE := by
              injection hTA with h
              exact h.symm
            subst hi
            exact ⟨by simp [Deny], rfl⟩

/-- Witness for C3 at a concrete input. -/
theorem broker_resolution_shape_witness :
    (([], .OK) : Invocation) ∈ brokerInvocations cexEnv cexReq ∧
    (((([], .OK) : Invocation).2 = .OK ∧
      (([], .OK) : Invocation).1 = grantedDevices cexEnv cexReq) ∨
     (((([], .OK) : Invocation).2 ≠ .OK ∧
      (([], .OK) : Invocation).1 = []))) :=
  ⟨by decide, broker_resolution_shape cexEnv cexReq ([], .OK) (by decide)⟩

/-- C10: when `TakeAction` runs on a non-tab, non-desktop request whose
originating render frame host no longer exists, it returns without firing
the callback; the callback then fires only through the destructor's
shutdown backstop, once, with FAILED_DUE_TO_SHUTDOWN and no devices. -/
theorem dead_rfh_stalls_then_shutdown (env : HostEnv)
    (req : MediaStreamRequest)
    (hscreen : isScreenCaptureRequest req = false)
    (hrfh : env.rfhAlive req.render_process_id req.render_frame_id = false) :
    TakeAction env req = .stalled ∧
    brokerInvocations env req = [([], .FAILED_DUE_TO_SHUTDOWN)] := by
  have hTA : TakeAction env req = .stalled := by
    unfold TakeAction
    rw [hscreen, hrfh]
    simp
  refine ⟨hTA, ?_⟩
  unfold brokerInvocations
  rw [hTA]
  simp [takeActionFires, callbackHeldAfter, destructorInvocations]

/-- A concrete host whose render frame hosts are all gone. -/
def deadRfhEnv : HostEnv where
  audio_devices := []
  video_devices := []
  rfhAlive := fun _ _ => false
  chooseMediaDevice := fun _ => false
  sessionResolution := fun _ => ([], .OK)
  parseDesktopMediaID := fun _ => ⟨.TYPE_SCREEN, 0⟩
  desktopMediaIDToString := fun _ => ""

/-- Witness for C10 at a concrete input. -/
theorem dead_rfh_stalls_then_shutdown_witness :
    isScreenCaptureRequest cexReq = false ∧
    deadRfhEnv.rfhAlive cexReq.render_process_id cexReq.render_frame_id
      = false ∧
    (TakeAction deadRfhEnv cexReq = .stalled ∧
     brokerInvocations deadRfhEnv cexReq = [([], .FAILED_DUE_TO_SHUTDOWN)]) :=
  ⟨rfl, rfl, dead_rfh_stalls_then_shutdown deadRfhEnv cexReq rfl rfl⟩

/-- C4: on the desktop-video path, the synthesized granted descriptor
targets the full-screen sentinel (`DesktopMediaID(TYPE_SCREEN,
kFullDesktopScreenId)`) when no video device id was supplied, and the
`DesktopMediaID` parsed from the supplied id string otherwise. -/
theorem desktop_video_target (env : HostEnv) (req : MediaStreamRequest)
    (hdesk : req.video_type = .GUM_DESKTOP_VIDEO_CAPTURE) :
    (HandleUserMediaRequestDevices env req).find?
        (fun d => d.type == .GUM_DESKTOP_VIDEO_CAPTURE) =
      some ⟨.GUM_DESKTOP_VIDEO_CAPTURE,
        env.desktopMediaIDToString
          (if req.requested_video_device_id.isEmpty then
            ⟨.TYPE_SCREEN, -1⟩
          else env.parseDesktopMediaID req.requested_video_device_id),
        "Screen"⟩ := by
  unfold HandleUserMediaRequestDevices
  rw [hdesk]
  cases haud : req.audio_type <;>
    simp [List.find?_append, List.find?] <;> rfl

/-- A concrete host for the desktop-capture witnesses. -/
def deskEnv : HostEnv where
  audio_devices := []
  video_devices := []
  rfhAlive := fun _ _ => true
  chooseMediaDevice := fun _ => false
  sessionResolution := fun _ => ([], .OK)
  parseDesktopMediaID := fun s => if s = "screen:42:0" then ⟨.TYPE_SCREEN, 42⟩
    else ⟨.TYPE_NONE, 0⟩
  desktopMediaIDToString := fun d =>
    if d = ⟨.TYPE_SCREEN, -1⟩ then "full-screen"
    else if d = ⟨.TYPE_SCREEN, 42⟩ then "screen-42"
    else "other"

/-- A desktop-video request with no device id. -/
def deskReqNoId : MediaStreamRequest where
  render_process_id := 1
  render_frame_id := 1
  request_type := .MEDIA_GENERATE_STREAM
  audio_type := .NO_SERVICE
  video_type := .GUM_DESKTOP_VIDEO_CAPTURE
  requested_audio_device_id := ""
  requested_video_device_id := ""

/-- A desktop-video request carrying a capture-target id string. -/
def deskReqWithId : MediaStreamRequest where
  render_process_id := 1
  render_frame_id := 1
  request_type := .MEDIA_GENERATE_STREAM
  audio_type := .NO_SERVICE
  video_type := .GUM_DESKTOP_VIDEO_CAPTURE
  requested_audio_device_id := ""
  requested_video_device_id := "screen:42:0"

/-- Witness for C4 at concrete inputs, covering both the empty-id and the
supplied-id cases. -/
theorem desktop_video_target_witness :
    deskReqNoId.video_type = .GUM_DESKTOP_VIDEO_CAPTURE ∧
    deskReqWithId.video_type = .GUM_DESKTOP_VIDEO_CAPTURE ∧
    (HandleUserMediaRequestDevices deskEnv deskReqNoId).find?
        (fun d => d.type == .GUM_DESKTOP_VIDEO_CAPTURE) =
      some ⟨.GUM_DESKTOP_VIDEO_CAPTURE,
        deskEnv.desktopMediaIDToString
          (if deskReqNoId.requested_video_device_id.isEmpty then
            ⟨.TYPE_SCREEN, -1⟩
          else deskEnv.parseDesktopMediaID
            deskReqNoId.requested_video_device_id),
        "Screen"⟩ ∧
    (HandleUserMediaRequestDevices deskEnv deskReqWithId).find?
        (fun d => d.type == .GUM_DESKTOP_VIDEO_CAPTURE) =
      some ⟨.GUM_DESKTOP_VIDEO_CAPTURE,
        deskEnv.desktopMediaIDToString
          (if deskReqWithId.requested_video_device_id.isEmpty then
            ⟨.TYPE_SCREEN, -1⟩
          else deskEnv.parseDesktopMediaID
            deskReqWithId.requested_video_device_id),
        "Screen"⟩ :=
  ⟨rfl, rfl, desktop_video_target deskEnv deskReqNoId rfl,
   desktop_video_target deskEnv deskReqWithId rfl⟩

/-- C5: for an accepted Pepper open-device request whose requested device id
matches no known device of the requested kind, the broker grants the first
available device of that kind when at least one exists — stated for the
audio case and for the video case. -/
theorem pepper_fallback_first_available (env : HostEnv)
    (req : MediaStreamRequest) (d : MediaStreamDevice) :
    (req.request_type = .MEDIA_OPEN_DEVICE_PEPPER_ONLY →
     req.audio_type = .DEVICE_AUDIO_CAPTURE →
     GetRequestedAudioDevice env req.requested_audio_device_id = none →
     GetFirstAvailableAudioDevice env = some d →
     Accept env req = ([d], .OK)) ∧
    (req.request_type = .MEDIA_OPEN_DEVICE_PEPPER_ONLY →
     req.audio_type ≠ .DEVICE_AUDIO_CAPTURE →
     req.video_type = .DEVICE_VIDEO_CAPTURE →
     GetRequestedVideoDevice env req.requested_video_device_id = none →
     GetFirstAvailableVideoDevice env = some d →
     Accept env req = ([d], .OK)) := by
  constructor
  · intro hpep haud hfind hfirst
    simp [Accept, AcceptDevices, microphone_requested, webcam_requested,
      hpep, haud, hfind, hfirst]
  · intro hpep haud hvid hfind hfirst
    simp [Accept, AcceptDevices, microphone_requested, webcam_requested,
      hpep, haud, hvid, hfind, hfirst]

/-- A concrete host with one audio and one video device, for the Pepper
fallback witness. -/
def pepperEnv : HostEnv where
  audio_devices := [⟨.DEVICE_AUDIO_CAPTURE, "a1", "Mic A"⟩]
  video_devices := [⟨.DEVICE_VIDEO_CAPTURE, "v1", "Cam V"⟩]
  rfhAlive := fun _ _ => true
  chooseMediaDevice := fun _ => false
  sessionResolution := fun _ => ([], .OK)
  parseDesktopMediaID := fun _ => ⟨.TYPE_SCREEN, 0⟩
  desktopMediaIDToString := fun _ => ""

/-- A Pepper open-device audio request with an unknown requested id. -/
def pepperAudioReq : MediaStreamRequest where
  render_process_id := 1
  render_frame_id := 1
  request_type := .MEDIA_OPEN_DEVICE_PEPPER_ONLY
  audio_type := .DEVICE_AUDIO_CAPTURE
  video_type := .NO_SERVICE
  requested_audio_device_id := "no-such-device"
  requested_video_device_id := ""

/-- A Pepper open-device video request with an unknown requested id. -/
def pepperVideoReq : MediaStreamRequest where
  render_process_id := 1
  render_frame_id := 1
  request_type := .MEDIA_OPEN_DEVICE_PEPPER_ONLY
  audio_type := .NO_SERVICE
  video_type := .DEVICE_VIDEO_CAPTURE
  requested_audio_device_id := ""
  requested_video_device_id := "no-such-device"

/-- Witness for C5 at concrete inputs, covering the audio and video cases. -/
theorem pepper_fallback_first_available_witness :
    pepperAudioReq.request_type = .MEDIA_OPEN_DEVICE_PEPPER_ONLY ∧
    pepperAudioReq.audio_type = .DEVICE_AUDIO_CAPTURE ∧
    GetRequestedAudioDevice pepperEnv
      pepperAudioReq.requested_audio_device_id = none ∧
    GetFirstAvailableAudioDevice pepperEnv =
      some ⟨.DEVICE_AUDIO_CAPTURE, "a1", "Mic A"⟩ ∧
    Accept pepperEnv pepperAudioReq =
      ([⟨.DEVICE_AUDIO_CAPTURE, "a1", "Mic A"⟩], .OK) ∧
    GetRequestedVideoDevice pepperEnv
      pepperVideoReq.requested_video_device_id = none ∧
    GetFirstAvailableVideoDevice pepperEnv =
      some ⟨.DEVICE_VIDEO_CAPTURE, "v1", "Cam V"⟩ ∧
    Accept pepperEnv pepperVideoReq =
      ([⟨.DEVICE_VIDEO_CAPTURE, "v1", "Cam V"⟩], .OK) :=
  ⟨rfl, rfl, by decide, rfl,
   (pepper_fallback_first_available pepperEnv pepperAudioReq
     ⟨.DEVICE_AUDIO_CAPTURE, "a1", "Mic A"⟩).1 rfl rfl (by decide) rfl,
   by decide, rfl,
   (pepper_fallback_first_available pepperEnv pepperVideoReq
     ⟨.DEVICE_VIDEO_CAPTURE, "v1", "Cam V"⟩).2 rfl (by decide) rfl
     (by decide) rfl⟩

/-!
Part 2 embeds the embedder-preload patch (`lib/internal/process/
pre_execution.js`, `src/api/environment.cc`, `src/env-inl.h`,
`src/node_options.cc`, `src/node_snapshotable.cc`, `src/node_worker.cc`).
A preload hook (`EmbedderPreloadCallback`, a possibly-null
`std::function`) is represented by an opaque token, `Option Nat`
(`none` = null). Environment bootstrap is modelled as the sequence of
events it performs.
-/

/-- The slice of `node::Environment` state the patch touches:
the `embedder_preload_` member (`none` = null `std::function`). -/
structure NodeEnvironment where
  embedder_preload : Option Nat
deriving DecidableEq

/-- `Environment::set_embedder_preload` (src/env-inl.h). -/
def set_embedder_preload (env : NodeEnvironment) (fn : Option Nat) :
    NodeEnvironment :=
  { env with embedder_preload := fn }

/-- The `hasEmbedderPreload` boolean that `GetEmbedderOptions`
(src/node_options.cc) places in the returned options object:
`env->embedder_preload() != nullptr`. -/
def hasEmbedderPreload (env : NodeEnvironment) : Bool :=
  env.embedder_preload.isSome

/-- Values passed to the preload hook from JS. -/
inductive JsValue where
  | processObject
  | requireFunction
deriving DecidableEq

/-- Observable steps of environment bootstrap. -/
inductive BootEvent where
  | internalSetup
  | preloadInvoked (hook : Nat) (arg1 arg2 : JsValue)
  | loadPreloadModules
  | userCodeExecution
deriving DecidableEq

/-- `RunEmbedderPreload` (src/node_snapshotable.cc): invokes
`env->embedder_preload()(env, args[0], args[1])`. The `CHECK`s require
the hook to be non-null and the arguments to be an object and a
function; all callers guard on `hasEmbedderPreload`, so the null case
(a fatal check in the source) is modelled as producing no event. -/
def RunEmbedderPreload (env : NodeEnvironment) (arg1 arg2 : JsValue) :
    List BootEvent :=
  match env.embedder_preload with
  | some h => [.preloadInvoked h arg1 arg2]
  | none => []

/-- `runEmbedderPreload` (lib/internal/process/pre_execution.js): calls
the mksnapshot binding with `(process, require)`, where `require` is the
internal module loader of pre_execution.js. -/
def runEmbedderPreloadJS (env : NodeEnvironment) : List BootEvent :=
  RunEmbedderPreload env .processObject .requireFunction

/-- `setupUserModules` (lib/internal/process/pre_execution.js): after the
internal setup and the asserts that no user CJS/ESM code has started, run
the embedder preload when `getEmbedderOptions().hasEmbedderPreload`, then
load the `--require` preload modules. -/
def setupUserModules (env : NodeEnvironment) : List BootEvent :=
  [.internalSetup] ++
  (if hasEmbedderPreload env then runEmbedderPreloadJS env else []) ++
  [.loadPreloadModules]

/-- `StartExecution`: bootstrap (including `setupUserModules`) and then the
entry point / user code. -/
def StartExecution (env : NodeEnvironment) : List BootEvent :=
  setupUserModules env ++ [.userCodeExecution]

/-- `LoadEnvironment` (src/api/environment.cc): stores the preload hook on
the environment when one is supplied, then starts execution. -/
def LoadEnvironment (env : NodeEnvironment) (preload : Option Nat) :
    NodeEnvironment × List BootEvent :=
  let env :=
    match preload with
    | some p => set_embedder_preload env (some p)
    | none => env
  (env, StartExecution env)

/-- The slice of `node::worker::Worker` state the patch adds:
the `embedder_preload_` member. -/
structure Worker where
  embedder_preload : Option Nat
deriving DecidableEq

/-- `Worker::Worker` (src/node_worker.cc): copies the creating
environment's `embedder_preload()` into the worker. -/
def Worker.create (env : NodeEnvironment) : Worker :=
  ⟨env.embedder_preload⟩

/-- `Worker::Run` (src/node_worker.cc): loads the worker's fresh
environment, passing along the inherited preload hook. -/
def Worker.run (w : Worker) (wenv : NodeEnvironment) :
    NodeEnvironment × List BootEvent :=
  LoadEnvironment wenv w.embedder_preload

/-- C6: loading an environment with a preload hook produces exactly one
invocation of the hook, after internal setup and before the preload
modules load and before any user code executes, with the process object
and the internal require function as arguments; a worker created from
that environment inherits the hook and its own bootstrap invokes it the
same way, once, in its own environment. -/
theorem embedder_preload_bootstrap_order (env : NodeEnvironment) (h : Nat) :
    (LoadEnvironment env (some h)).2 =
      [.internalSetup, .preloadInvoked h .processObject .requireFunction,
       .loadPreloadModules, .userCodeExecution] ∧
    (Worker.create (LoadEnvironment env (some h)).1).embedder_preload
      = some h ∧
    (Worker.run (Worker.create (LoadEnvironment env (some h)).1)
        ⟨none⟩).2 =
      [.internalSetup, .preloadInvoked h .processObject .requireFunction,
       .loadPreloadModules, .userCodeExecution] := by
  refine ⟨?_, rfl, ?_⟩ <;>
    simp [LoadEnvironment, StartExecution, setupUserModules,
      hasEmbedderPreload, runEmbedderPreloadJS, RunEmbedderPreload,
      set_embedder_preload, Worker.create, Worker.run]

/-- C7: the `hasEmbedderPreload` capability flag is true exactly when a
preload hook is registered on the environment at query time; registering
or clearing the hook flips it accordingly. -/
theorem has_embedder_preload_flag (env : NodeEnvironment) :
    (hasEmbedderPreload env = true ↔ env.embedder_preload ≠ none) ∧
    (∀ f : Nat,
      hasEmbedderPreload (set_embedder_preload env (some f)) = true) ∧
    hasEmbedderPreload (set_embedder_preload env none) = false := by
  refine ⟨?_, fun f => rfl, rfl⟩
  simp [hasEmbedderPreload, Option.isSome_iff_ne_none]

/-!
Part 3 embeds the WebAssembly trap-handler guard (`src/node.cc`,
`src/node.h`): the added `kNoEnableWasmTrapHandler` bit of
`ProcessInitializationFlags::Flags` and the guard it controls in
`PlatformInit` (on builds with NODE_USE_V8_WASM_TRAP_HANDLER defined).
-/

/-- `ProcessInitializationFlags::kNoEnableWasmTrapHandler = 1 << 15`
(src/node.h). -/
def kNoEnableWasmTrapHandler : Nat := 1 <<< 15

/-- The guarded call in `PlatformInit` (src/node.cc): whether
`V8::EnableWebAssemblyTrapHandler(false)` is invoked for the given
process initialization flags word. -/
def PlatformInit_callsEnableWasmTrapHandler (flags : Nat) : Bool :=
  flags &&& kNoEnableWasmTrapHandler == 0

/-- C8: the one-time registration runs exactly when bit 15
(`kNoEnableWasmTrapHandler`) is clear in the initialization flags, and
or-ing the flag into any flags word suppresses it entirely. -/
theorem wasm_trap_handler_guard (flags : Nat) :
    (PlatformInit_callsEnableWasmTrapHandler flags = true ↔
      flags.testBit 15 = false) ∧
    PlatformInit_callsEnableWasmTrapHandler
      (flags ||| kNoEnableWasmTrapHandler) = false := by
  have hk : kNoEnableWasmTrapHandler = 2 ^ 15 := by decide
  have hand : ∀ n : Nat, (n &&& 2 ^ 15 == 0) = !n.testBit 15 := by
    intro n
    rw [Nat.and_two_pow]
    cases hb : n.testBit 15 <;> decide
  constructor
  · rw [PlatformInit_callsEnableWasmTrapHandler, hk, hand]
    cases hb : flags.testBit 15 <;> simp [hb]
  · rw [PlatformInit_callsEnableWasmTrapHandler, hk, hand]
    rw [Nat.testBit_lor]
    have h15 : Nat.testBit (2 ^ 15) 15 = true := by decide
    have h15' : Nat.testBit 32768 15 = true := by decide
    simp [h15, h15']

/-!
Part 4 embeds the patched accessibility diagnostic page
(`chrome/browser/ui/webui/accessibility/accessibility_ui.cc`): the
profile-preference lookups and writes and the browser-window enumeration
are compiled out (`#if 0`), replaced by fixed "blink" constants.
-/

/-- `ui::AXApiType::Type`, restricted to a few representative values. -/
inductive AXApiType where
  | kBlink
  | kMac
  | kWinIA2
  | kLinux
deriving DecidableEq

/-- The persisted per-profile preference store the unpatched handlers read
and wrote (`prefs::kShownAccessibilityApiType`). -/
structure PrefService where
  shownAccessibilityApiType : String
deriving DecidableEq

/-- The `kApiType` string-name key handled by `SetGlobalString`. -/
def kApiTypeField : String := "apiType"

/-- Patched `HandleAccessibilityRequestCallback`: the api-type string
placed in the returned data. The persisted preference read is compiled
out and replaced by the fixed constant. -/
def HandleAccessibilityRequestCallback_prefApiType (_pref : PrefService) :
    String :=
  "blink"

/-- Patched `HandleAccessibilityRequestCallback`: the browsers list placed
in the returned data. The `BrowserList` enumeration is compiled out, so
the list stays empty whatever browser windows exist. -/
def HandleAccessibilityRequestCallback_browserList (_browsers : List Nat) :
    List Nat :=
  []

/-- Patched `AccessibilityUIMessageHandler::SetGlobalString`: the branch
for the api-type key no longer performs the persisted preference write,
so the preference store is returned unchanged. -/
def AccessibilityUIMessageHandler_SetGlobalString (pref : PrefService)
    (string_name _value : String) : PrefService :=
  if string_name = kApiTypeField then pref else pref

/-- Patched `AccessibilityUIMessageHandler::RequestWebContentsTree`: the
accessibility API type used to dump the tree; the preference read is
compiled out and replaced by `ui::AXApiType::kBlink`. -/
def AccessibilityUIMessageHandler_RequestWebContentsTree_apiType
    (_pref : PrefService) : AXApiType :=
  .kBlink

/-- C9: for every request served by the patched handlers, the reported
api-type string and the tree-dump api type are the fixed "blink"
constants regardless of the stored preference, setting the api-type
string leaves the preference store untouched, and the browsers list is
empty regardless of the open browser windows. -/
theorem accessibility_ui_patched_behavior (pref : PrefService)
    (browsers : List Nat) (string_name value : String) :
    HandleAccessibilityRequestCallback_prefApiType pref = "blink" ∧
    HandleAccessibilityRequestCallback_browserList browsers = [] ∧
    AccessibilityUIMessageHandler_SetGlobalString pref string_name value
      = pref ∧
    AccessibilityUIMessageHandler_RequestWebContentsTree_apiType pref
      = .kBlink := by
  refine ⟨rfl, rfl, ?_, rfl⟩
  unfold AccessibilityUIMessageHandler_SetGlobalString
  split <;> rfl
